import Mathlib

/-!
Shallow embedding of `src/app.py` (California house-price estimator).

The app has two panels executed top-to-bottom on every interaction:
* a Predictor: eight widget inputs, a map, and an estimate action that
  builds a one-row feature table, calls `model.predict`, scales by
  100000, shows a metric (price and delta vs a fixed average, each
  formatted with Python's `:,.0f`, i.e. rounded half-to-even to whole
  dollars) and a feature-importance table sorted descending;
* an Experiment Runner (behind a sidebar toggle): splits the fixed
  California dataset 80/20 with `random_state=42`, fits a fresh
  `RandomForestRegressor(n_estimators, max_depth)` (no `random_state`),
  and reports the R2 score and predicted/actual pairs of the test split.

External library calls (`train_test_split`, the forest fit, `r2_score`)
are embedded by their documented semantics; the seeded permutation and
the randomized forest fit are abstracted as an `MLLib` parameter so that
what the code does and does not determine stays visible.
-/

namespace MonProjetImmo

/-! ## Widgets (src/app.py lines 22-31, 121-123)

`st.number_input(label, value, step)` with no `min_value`/`max_value`
accepts any numeric value; `st.slider(label, lo, hi, default)` is
structurally clamped to `[lo, hi]`. -/

/-- A `st.number_input` widget: default value, step, optional bounds. -/
structure NumberInputSpec where
  value : ℚ
  step : Option ℚ
  min_value : Option ℚ
  max_value : Option ℚ

/-- A `st.slider` widget over integers: bounds and default. -/
structure SliderSpec where
  min_value : ℤ
  max_value : ℤ
  value : ℤ

/-- Which values a `st.number_input` accepts: only the declared bounds
restrict it; an absent bound restricts nothing. -/
def numberInputAdmits (w : NumberInputSpec) (v : ℚ) : Bool :=
  (match w.min_value with
   | none => true
   | some lo => decide (lo ≤ v)) &&
  (match w.max_value with
   | none => true
   | some hi => decide (v ≤ hi))

/-- Which values a `st.slider` accepts: exactly the interval between its
bounds. -/
def sliderAdmits (w : SliderSpec) (v : ℤ) : Bool :=
  decide (w.min_value ≤ v) && decide (v ≤ w.max_value)

/-- `med_inc = st.number_input("Revenu Médian du quartier (en 10k$)", value=5.0, step=0.1)` -/
def med_inc : NumberInputSpec :=
  { value := 5, step := some (1/10), min_value := none, max_value := none }

/-- `house_age = st.slider("Âge de la maison (années)", 1, 50, 20)` -/
def house_age : SliderSpec :=
  { min_value := 1, max_value := 50, value := 20 }

/-- `ave_rooms = st.number_input("Nombre moyen de pièces", value=6.0, step=0.5)` -/
def ave_rooms : NumberInputSpec :=
  { value := 6, step := some (1/2), min_value := none, max_value := none }

/-- `ave_bedrms = st.number_input("Nombre moyen de chambres", value=1.0, step=0.1)` -/
def ave_bedrms : NumberInputSpec :=
  { value := 1, step := some (1/10), min_value := none, max_value := none }

/-- `population = st.number_input("Population du quartier", value=1000, step=100)` -/
def population : NumberInputSpec :=
  { value := 1000, step := some 100, min_value := none, max_value := none }

/-- `ave_occup = st.number_input("Occupants par maison", value=3.0, step=0.1)` -/
def ave_occup : NumberInputSpec :=
  { value := 3, step := some (1/10), min_value := none, max_value := none }

/-- `latitude = st.number_input("Latitude (Ex: 34.0 LA / 37.7 SF)", value=37.7)` -/
def latitude : NumberInputSpec :=
  { value := 377/10, step := none, min_value := none, max_value := none }

/-- `longitude = st.number_input("Longitude (Ex: -118.2 LA / -122.4 SF)", value=-122.4)` -/
def longitude : NumberInputSpec :=
  { value := -612/5, step := none, min_value := none, max_value := none }

/-- `n_arbres = st.slider("Nombre d arbres (n_estimators)", 10, 100, 30)` -/
def n_arbres : SliderSpec :=
  { min_value := 10, max_value := 100, value := 30 }

/-- `profondeur = st.slider("Profondeur max (max_depth)", 1, 20, 5)` -/
def profondeur : SliderSpec :=
  { min_value := 1, max_value := 20, value := 5 }

/-! ## Predictor data (src/app.py lines 45-95) -/

/-- The eight user-entered values (sliders yield integers). -/
structure Inputs where
  med_inc : ℚ
  house_age : ℤ
  ave_rooms : ℚ
  ave_bedrms : ℚ
  population : ℤ
  ave_occup : ℚ
  latitude : ℚ
  longitude : ℚ

/-- Column names of the one-row feature table, in source order
(src/app.py lines 48-57). -/
def featureColumns : List String :=
  ["MedInc", "HouseAge", "AveRooms", "AveBedrms", "Population", "AveOccup",
   "Latitude", "Longitude"]

/-- The one-row `pd.DataFrame` built for prediction: named columns in the
fixed source order, holding the entered values. -/
def features (i : Inputs) : List (String × ℚ) :=
  [("MedInc", i.med_inc), ("HouseAge", (i.house_age : ℚ)),
   ("AveRooms", i.ave_rooms), ("AveBedrms", i.ave_bedrms),
   ("Population", (i.population : ℚ)), ("AveOccup", i.ave_occup),
   ("Latitude", i.latitude), ("Longitude", i.longitude)]

/-- The opaque pre-trained model `joblib.load('mon_super_modele.pkl')`:
a prediction function on one feature row and an importance vector. -/
structure TrainedModel where
  predict : List (String × ℚ) → ℚ
  feature_importances : List ℚ

/-- `prix_moyen_californie = 206855` (src/app.py line 65). -/
def prix_moyen_californie : ℚ := 206855

/-- Human-readable labels paired with the importances, in the same fixed
order as the feature columns (src/app.py line 85). -/
def feature_names : List String :=
  ["Revenu", "Âge", "Pièces", "Chambres", "Population", "Occupants",
   "Latitude", "Longitude"]

/-- The importance table as built (src/app.py lines 86-89): labels zipped
with `model.feature_importances_` in field order, before sorting. -/
def df_importance_unsorted (model : TrainedModel) : List (String × ℚ) :=
  feature_names.zip model.feature_importances

/-- `df_importance.sort_values(by='Importance', ascending=False)`
(src/app.py line 92): sort the rows by importance, largest first. -/
def sort_values_desc (df : List (String × ℚ)) : List (String × ℚ) :=
  df.mergeSort (fun a b => decide (b.2 ≤ a.2))

/-- Rounding of Python's fixed-point formatting `f"{x:,.0f}"` to zero
decimals: round half to even. The comma grouping and the currency suffix
are presentation only; the displayed whole-dollar amount is this integer. -/
def roundHalfEven (q : ℚ) : ℤ :=
  if q - ⌊q⌋ < 1/2 then ⌊q⌋
  else if 1/2 < q - ⌊q⌋ then ⌊q⌋ + 1
  else if ⌊q⌋ % 2 = 0 then ⌊q⌋ else ⌊q⌋ + 1

/-- Everything the estimate action computes and displays
(src/app.py lines 45-95). -/
structure EstimateOutput where
  features : List (String × ℚ)
  prediction : ℚ
  prix_final : ℚ
  delta : ℚ
  metricValueRounded : ℤ
  metricDeltaRounded : ℤ
  df_importance : List (String × ℚ)

/-- The body of `if st.button("Estimer le Prix")` (src/app.py lines 45-95):
build the feature row, predict, scale to dollars, compare to the fixed
average, format the metric, and sort the importance table for display. -/
def estimateAction (model : TrainedModel) (i : Inputs) : EstimateOutput :=
  let fs := features i
  let prediction := model.predict fs
  let prix_final := prediction * 100000
  let delta := prix_final - prix_moyen_californie
  { features := fs
    prediction := prediction
    prix_final := prix_final
    delta := delta
    metricValueRounded := roundHalfEven prix_final
    metricDeltaRounded := roundHalfEven delta
    df_importance := sort_values_desc (df_importance_unsorted model) }

/-! ## Experiment Runner (src/app.py lines 102-148) -/

/-- The reference dataset returned by `fetch_california_housing()`:
feature rows, targets, and feature names. -/
structure Dataset where
  data : List (List ℚ)
  target : List ℚ
  feature_names : List String

/-- The constructor arguments of `RandomForestRegressor` the code can
set. The code passes `n_estimators` and `max_depth` and leaves
`random_state` at its default `None` (src/app.py line 132). -/
structure RFConfig where
  n_estimators : ℕ
  max_depth : Option ℕ
  random_state : Option ℕ

/-- `RandomForestRegressor(n_estimators=n_arbres, max_depth=profondeur)`:
no `random_state` argument appears in the call. -/
def labModelConfig (nA nD : ℕ) : RFConfig :=
  { n_estimators := nA, max_depth := some nD, random_state := none }

/-- Abstracted scikit-learn behavior: `permutation seed n` is the seeded
shuffle of the row indices used by `train_test_split` (a deterministic
function of the seed, always a permutation of `range n`), and `fit` is
the randomized forest training, which reads the config and — because the
config carries no seed — the ambient process randomness `rng`; fitting
returns the fitted predictor or propagates an exception. -/
structure MLLib where
  permutation : ℕ → ℕ → List ℕ
  permutation_perm : ∀ seed n, (permutation seed n).Perm (List.range n)
  fit : RFConfig → ℕ → List (List ℚ) → List ℚ →
    Except String (List (List ℚ) → List ℚ)

/-- `train_test_split(X, Y, test_size=0.2, random_state=42)`: shuffle the
row indices with the seeded permutation, keep the first
`ceil(n * test_size)` shuffled rows as the test set and the remaining
rows as the training set. Returns (X_train, X_test, Y_train, Y_test). -/
def train_test_split (lib : MLLib) (X : List (List ℚ)) (Y : List ℚ)
    (test_size : ℚ) (random_state : ℕ) :
    List (List ℚ) × List (List ℚ) × List ℚ × List ℚ :=
  let n := X.length
  let n_test := ⌈(n : ℚ) * test_size⌉₊
  let perm := lib.permutation random_state n
  let test_idx := perm.take n_test
  let train_idx := perm.drop n_test
  (train_idx.map (fun k => X.getD k []),
   test_idx.map (fun k => X.getD k []),
   train_idx.map (fun k => Y.getD k 0),
   test_idx.map (fun k => Y.getD k 0))

/-- Arithmetic mean of a list. -/
def mean (l : List ℚ) : ℚ := l.sum / l.length

/-- `sklearn.metrics.r2_score` on a single output, the value computed by
`lab_model.score(X_test, Y_test)` with `y_pred = lab_model.predict(X_test)`:
`1 - ss_res / ss_tot`, where a zero residual scores 1 and a nonzero
residual over a constant truth scores 0. -/
def r2_score (y_true y_pred : List ℚ) : ℚ :=
  if ((y_true.zip y_pred).map (fun p => (p.1 - p.2) ^ 2)).sum = 0 then 1
  else if (y_true.map (fun y => (y - mean y_true) ^ 2)).sum = 0 then 0
  else 1 - ((y_true.zip y_pred).map (fun p => (p.1 - p.2) ^ 2)).sum
    / (y_true.map (fun y => (y - mean y_true) ^ 2)).sum

/-- Everything one experiment run computes: the constructed model config,
the seed passed to the split, the four split parts, the score, and the
predicted/actual pairs of the scatter plot. -/
structure ExperimentResult where
  labConfig : RFConfig
  splitSeed : ℕ
  X_train : List (List ℚ)
  X_test : List (List ℚ)
  Y_train : List ℚ
  Y_test : List ℚ
  score : ℚ
  preds : List ℚ
  pairs : List (ℚ × ℚ)

/-- The body of `if st.button("Lancer")` (src/app.py lines 126-148): split
`test_size=0.2, random_state=42`, fit a fresh unseeded
`RandomForestRegressor(n_estimators=n_arbres, max_depth=profondeur)` on
the training part, score it on the held-out part, and pair the actual
test targets with the predictions for the scatter plot. A failure inside
fitting propagates and aborts only this action. -/
def runExperiment (lib : MLLib) (rng : ℕ) (data : Dataset) (nA nD : ℕ) :
    Except String ExperimentResult :=
  let s := train_test_split lib data.data data.target (1/5) 42
  let X_train := s.1
  let X_test := s.2.1
  let Y_train := s.2.2.1
  let Y_test := s.2.2.2
  let cfg := labModelConfig nA nD
  (lib.fit cfg rng X_train Y_train).map (fun lab_predict =>
    let preds := lab_predict X_test
    { labConfig := cfg, splitSeed := 42, X_train := X_train, X_test := X_test,
      Y_train := Y_train, Y_test := Y_test,
      score := r2_score Y_test preds, preds := preds,
      pairs := Y_test.zip preds })

/-- The score of a finished run, `none` when the run aborted. -/
def scoreView (e : Except String ExperimentResult) : Option ℚ :=
  e.toOption.map ExperimentResult.score

/-! ## The whole script (one top-to-bottom run per interaction) -/

/-- The widget state one interaction sees: the eight predictor inputs,
whether the estimate button fired, the sidebar lab checkbox, the two
hyperparameter sliders, and whether the experiment button fired. -/
structure AppState where
  inputs : Inputs
  estimateClicked : Bool
  show_lab : Bool
  n_arbres : ℕ
  profondeur : ℕ
  experimentClicked : Bool

/-- What one run displays: the coordinate map (always), the estimate
panel (only when its button fired), and the experiment panel (only when
the lab is shown and its button fired; `Except.error` when the action
aborted). -/
structure AppOutput where
  map_data : ℚ × ℚ
  estimate : Option EstimateOutput
  experiment : Option (Except String ExperimentResult)

/-- One top-to-bottom execution of src/app.py: the map is built from the
entered coordinates unconditionally (lines 38-41); the estimate block
runs only under its button (line 45); the experiment block only when the
lab checkbox is on and its button fired (lines 102, 126). -/
def renderApp (model : TrainedModel) (lib : MLLib) (rng : ℕ) (data : Dataset)
    (s : AppState) : AppOutput :=
  { map_data := (s.inputs.latitude, s.inputs.longitude)
    estimate :=
      if s.estimateClicked then some (estimateAction model s.inputs) else none
    experiment :=
      if s.show_lab then
        if s.experimentClicked then
          some (runExperiment lib rng data s.n_arbres s.profondeur)
        else none
      else none }

/-! ## Concrete instances used in counterexamples and witnesses -/

/-- The widget default values as an input vector. -/
def inputs0 : Inputs :=
  { med_inc := 5, house_age := 20, ave_rooms := 6, ave_bedrms := 1,
    population := 1000, ave_occup := 3, latitude := 377/10, longitude := -612/5 }

/-- A possible loaded model: it predicts 2.068555 (price 206855.50 $) and
puts all importance on the first feature. -/
def cmodel : TrainedModel :=
  { predict := fun _ => 2068555/1000000
    feature_importances := [1, 0, 0, 0, 0, 0, 0, 0] }

/-- A possible library behavior: the seeded shuffle is the identity
permutation, and the fitted forest predicts the ambient random state
itself on every row — fitting with `random_state=None` may read fresh
process randomness, and this instance makes that sensitivity concrete. -/
def lib0 : MLLib :=
  { permutation := fun _ n => List.range n
    permutation_perm := fun _ _ => List.Perm.refl _
    fit := fun _ rng _ _ =>
      Except.ok (fun X_test => X_test.map (fun _ => (rng : ℚ))) }

/-- A five-row reference dataset for concrete runs. -/
def data0 : Dataset :=
  { data := [[0], [1], [2], [3], [4]]
    target := [0, 1, 2, 3, 4]
    feature_names := ["x"] }

/-- The result of the concrete run `runExperiment lib0 0 data0 30 5`. -/
def r0 : ExperimentResult :=
  { labConfig := labModelConfig 30 5, splitSeed := 42
    X_train := [[1], [2], [3], [4]], X_test := [[0]]
    Y_train := [1, 2, 3, 4], Y_test := [0]
    score := 1, preds := [0], pairs := [(0, 0)] }

/-! ## Helper lemmas -/

theorem estimate_prix_final (model : TrainedModel) (i : Inputs) :
    (estimateAction model i).prix_final = model.predict (features i) * 100000 := rfl

theorem estimate_delta (model : TrainedModel) (i : Inputs) :
    (estimateAction model i).delta
      = model.predict (features i) * 100000 - prix_moyen_californie := rfl

theorem estimate_metricValue (model : TrainedModel) (i : Inputs) :
    (estimateAction model i).metricValueRounded
      = roundHalfEven (model.predict (features i) * 100000) := rfl

theorem estimate_metricDelta (model : TrainedModel) (i : Inputs) :
    (estimateAction model i).metricDeltaRounded
      = roundHalfEven (model.predict (features i) * 100000 - prix_moyen_californie) := rfl

theorem estimate_df_importance (model : TrainedModel) (i : Inputs) :
    (estimateAction model i).df_importance
      = sort_values_desc (df_importance_unsorted model) := rfl

/-- Half-even rounding moves a value to its floor or to its floor plus one. -/
theorem roundHalfEven_bounds (q : ℚ) :
    ⌊q⌋ ≤ roundHalfEven q ∧ roundHalfEven q ≤ ⌊q⌋ + 1 := by
  unfold roundHalfEven
  split_ifs <;> omega

/-- Subtracting the reference average shifts the floor by exactly 206855. -/
theorem floor_sub_avg (p : ℚ) : ⌊p - prix_moyen_californie⌋ = ⌊p⌋ - 206855 := by
  have h : (prix_moyen_californie : ℚ) = ((206855 : ℤ) : ℚ) := by
    norm_num [prix_moyen_californie]
  rw [h, Int.floor_sub_int]

/-- Reading every index of a list in order reproduces the list. -/
theorem map_getD_range {α : Type} (l : List α) (d : α) :
    (List.range l.length).map (fun k => l.getD k d) = l := by
  apply List.ext_getElem
  · simp
  · intro i h1 h2
    simp [List.getD_eq_getElem?_getD, List.getElem?_eq_getElem h2]

/-- A sum of squared differences is nonnegative. -/
theorem sq_sum_nonneg (l : List (ℚ × ℚ)) :
    0 ≤ (l.map (fun p => (p.1 - p.2) ^ 2)).sum := by
  apply List.sum_nonneg
  intro x hx
  obtain ⟨p, hp, rfl⟩ := List.mem_map.mp hx
  positivity

/-- A sum of squared deviations is nonnegative. -/
theorem sq_sum_nonneg' (l : List ℚ) (c : ℚ) :
    0 ≤ (l.map (fun y => (y - c) ^ 2)).sum := by
  apply List.sum_nonneg
  intro x hx
  obtain ⟨y, hy, rfl⟩ := List.mem_map.mp hx
  positivity

/-- The residual sum of squares vanishes exactly on a perfect fit. -/
theorem zip_sq_sum_eq_zero_iff (l : List ℚ) :
    ∀ m : List ℚ, m.length = l.length →
      ((((l.zip m).map (fun p => (p.1 - p.2) ^ 2)).sum = 0) ↔ m = l) := by
  induction l with
  | nil =>
    intro m hm
    rw [List.length_nil, List.length_eq_zero] at hm
    subst hm
    simp
  | cons a t ih =>
    intro m hm
    cases m with
    | nil => simp at hm
    | cons b s =>
      have hlen : s.length = t.length := by simpa using hm
      simp only [List.zip_cons_cons, List.map_cons, List.sum_cons]
      have h1 : (0 : ℚ) ≤ (a - b) ^ 2 := by positivity
      have h2 : 0 ≤ ((t.zip s).map (fun p => (p.1 - p.2) ^ 2)).sum :=
        sq_sum_nonneg _
      rw [add_eq_zero_iff_of_nonneg h1 h2, ih s hlen,
        pow_eq_zero_iff (two_ne_zero), sub_eq_zero]
      constructor
      · rintro ⟨h, rfl⟩
        rw [h]
      · intro h
        injection h with ha hs
        exact ⟨ha.symm, hs⟩

/-- Evaluating the seeded split on the concrete five-row dataset. -/
theorem split0 :
    train_test_split lib0 data0.data data0.target (1/5) 42
      = ([[1], [2], [3], [4]], [[0]], [1, 2, 3, 4], [0]) := by
  simp only [train_test_split, lib0, data0]
  norm_num
  decide

/-- Evaluating the concrete run: the unseeded forest of `lib0` predicts
the ambient random state on the single held-out row. -/
theorem run0 (rng : ℕ) :
    runExperiment lib0 rng data0 30 5
      = Except.ok
          { labConfig := labModelConfig 30 5, splitSeed := 42
            X_train := [[1], [2], [3], [4]], X_test := [[0]]
            Y_train := [1, 2, 3, 4], Y_test := [0]
            score := r2_score [0] [(rng : ℚ)], preds := [(rng : ℚ)]
            pairs := [(0, (rng : ℚ))] } := by
  simp only [runExperiment, split0]
  simp [lib0, Except.map]

/-- Random state 0 gives a perfect fit on the concrete run. -/
theorem score_rng0 : r2_score [0] [(0 : ℚ)] = 1 := by
  unfold r2_score
  norm_num

/-- Random state 1 gives score 0 on the concrete run. -/
theorem score_rng1 : r2_score [0] [(1 : ℚ)] = 0 := by
  unfold r2_score
  norm_num [mean]

/-- The fitted result of the concrete run with random state 0 is `r0`. -/
theorem hrun0 : runExperiment lib0 0 data0 30 5 = Except.ok r0 := by
  rw [run0 0]
  norm_num [r0, score_rng0]

/-! ## Theorems -/

/-- C2 counterexample: the median-income field is built with no
`min_value`/`max_value` at all, so the widget itself admits a clearly
invalid value such as a median income of -1000000; the same holds for the
population field. The inputs are not all structurally confined. -/
theorem C2_counterexample :
    med_inc.min_value = none ∧ med_inc.max_value = none ∧
    numberInputAdmits med_inc (-1000000) = true ∧
    numberInputAdmits population (-1000000) = true :=
  ⟨rfl, rfl, rfl, rfl⟩

/-- C2 (amended): only the three slider widgets are structurally confined
to their documented ranges (house age [1,50], tree count [10,100], max
depth [1,20]); the seven `st.number_input` fields carry no bounds and
admit every numeric value. -/
theorem C2_slider_bounds_only :
    (∀ v : ℤ, sliderAdmits house_age v = true → 1 ≤ v ∧ v ≤ 50) ∧
    (∀ v : ℤ, sliderAdmits n_arbres v = true → 10 ≤ v ∧ v ≤ 100) ∧
    (∀ v : ℤ, sliderAdmits profondeur v = true → 1 ≤ v ∧ v ≤ 20) ∧
    (∀ q : ℚ, numberInputAdmits med_inc q = true) ∧
    (∀ q : ℚ, numberInputAdmits ave_rooms q = true) ∧
    (∀ q : ℚ, numberInputAdmits ave_bedrms q = true) ∧
    (∀ q : ℚ, numberInputAdmits population q = true) ∧
    (∀ q : ℚ, numberInputAdmits ave_occup q = true) ∧
    (∀ q : ℚ, numberInputAdmits latitude q = true) ∧
    (∀ q : ℚ, numberInputAdmits longitude q = true) := by
  refine ⟨?_, ?_, ?_, fun q => rfl, fun q => rfl, fun q => rfl, fun q => rfl,
    fun q => rfl, fun q => rfl, fun q => rfl⟩ <;>
  · intro v h
    simpa [sliderAdmits, house_age, n_arbres, profondeur] using h

/-- C2 witness: the default house age 20 is accepted by its slider and
hence lies in [1,50]; the unbounded median-income field accepts -3. -/
theorem C2_witness :
    ((1:ℤ) ≤ 20 ∧ (20:ℤ) ≤ 50) ∧ numberInputAdmits med_inc (-3) = true :=
  ⟨C2_slider_bounds_only.1 20 (by decide), C2_slider_bounds_only.2.2.2.1 (-3)⟩

/-- C3: the price produced by the estimate action is exactly
`model.predict(features)[0] * 100000`, and the whole-dollar amount shown
in the metric is the half-even rounding of exactly that value. -/
theorem C3_displayed_price (model : TrainedModel) (i : Inputs) :
    (estimateAction model i).prix_final = model.predict (features i) * 100000 ∧
    (estimateAction model i).metricValueRounded
      = roundHalfEven (model.predict (features i) * 100000) :=
  ⟨rfl, rfl⟩

/-- C6: the feature table handed to `model.predict` has exactly the eight
columns MedInc, HouseAge, AveRooms, AveBedrms, Population, AveOccup,
Latitude, Longitude in that order; the human-readable labels are paired
with the importances in that same field order (the displayed table is a
permutation of that field-order pairing). -/
theorem C6_feature_vector_contract (model : TrainedModel) (i : Inputs) :
    (features i).map Prod.fst = featureColumns ∧
    (estimateAction model i).prediction = model.predict (features i) ∧
    df_importance_unsorted model = feature_names.zip model.feature_importances ∧
    feature_names.length = featureColumns.length ∧
    ((estimateAction model i).df_importance).Perm
      (feature_names.zip model.feature_importances) := by
  refine ⟨rfl, rfl, rfl, rfl, ?_⟩
  show (sort_values_desc (df_importance_unsorted model)).Perm (df_importance_unsorted model)
  exact List.mergeSort_perm _ _

/-- C4 counterexample: with a loaded model predicting 2.068555, the price
is 206855.50 $; the metric displays the price rounded to 206,856 $ but the
delta rounded to 0 $, so the two displayed figures drift apart: the
displayed price minus the reference average 206855 is 1, not the displayed
delta 0. Each string is rounded independently by `:,.0f`. -/
theorem C4_counterexample :
    (estimateAction cmodel inputs0).metricValueRounded = 206856 ∧
    (estimateAction cmodel inputs0).metricDeltaRounded = 0 ∧
    (estimateAction cmodel inputs0).metricValueRounded - 206855
      ≠ (estimateAction cmodel inputs0).metricDeltaRounded := by
  have hpred : cmodel.predict (features inputs0) = 2068555/1000000 := rfl
  have hp : cmodel.predict (features inputs0) * 100000 = 413711/2 := by
    rw [hpred]; norm_num
  have hd : cmodel.predict (features inputs0) * 100000 - prix_moyen_californie
      = 1/2 := by
    rw [hp]; norm_num [prix_moyen_californie]
  have hf1 : ⌊(413711/2 : ℚ)⌋ = 206855 := by
    rw [Int.floor_eq_iff]
    constructor <;> norm_num
  have hf2 : ⌊(1/2 : ℚ)⌋ = 0 := by
    rw [Int.floor_eq_iff]
    constructor <;> norm_num
  have h1 : roundHalfEven (413711/2 : ℚ) = 206856 := by
    unfold roundHalfEven
    rw [hf1]
    norm_num
  have h2 : roundHalfEven (1/2 : ℚ) = 0 := by
    unfold roundHalfEven
    rw [hf2]
    norm_num
  refine ⟨?_, ?_, ?_⟩
  · rw [estimate_metricValue, hp]; exact h1
  · rw [estimate_metricDelta, hd]; exact h2
  · rw [estimate_metricValue, estimate_metricDelta, hd, hp, h1, h2]; decide

/-- C4 (amended): the computed delta equals the computed price minus the
206855 reference exactly, and each displayed figure is the half-even
rounding of its exact value; because the two figures are rounded
independently, the displayed price minus 206855 can differ from the
displayed delta, but never by more than one dollar. -/
theorem C4_delta_consistency (model : TrainedModel) (i : Inputs) :
    (estimateAction model i).delta
      = (estimateAction model i).prix_final - prix_moyen_californie ∧
    (estimateAction model i).metricValueRounded
      = roundHalfEven ((estimateAction model i).prix_final) ∧
    (estimateAction model i).metricDeltaRounded
      = roundHalfEven ((estimateAction model i).delta) ∧
    |((estimateAction model i).metricValueRounded - 206855)
      - (estimateAction model i).metricDeltaRounded| ≤ 1 := by
  refine ⟨rfl, rfl, rfl, ?_⟩
  rw [estimate_metricValue, estimate_metricDelta]
  have h1 := roundHalfEven_bounds (model.predict (features i) * 100000)
  have h2 := roundHalfEven_bounds
    (model.predict (features i) * 100000 - prix_moyen_californie)
  have h3 := floor_sub_avg (model.predict (features i) * 100000)
  rw [abs_le]
  omega

/-- C5 counterexample: with a loaded model whose importance vector is
[1, 0, 0, 0, 0, 0, 0, 0] (summing to exactly 1), the displayed table is
not strictly descending: the tied zero importances cannot be strictly
ordered. `sort_values(ascending=False)` only sorts weakly. -/
theorem C5_counterexample :
    cmodel.feature_importances.sum = 1 ∧
    ¬ (((estimateAction cmodel inputs0).df_importance.map Prod.snd).Pairwise
        (· > ·)) := by
  constructor
  · show ([1, 0, 0, 0, 0, 0, 0, 0] : List ℚ).sum = 1
    norm_num
  · intro hpw
    have hnd : ((estimateAction cmodel inputs0).df_importance.map Prod.snd).Nodup :=
      hpw.imp (fun h => ne_of_gt h)
    have hperm : ((estimateAction cmodel inputs0).df_importance.map Prod.snd).Perm
        ((df_importance_unsorted cmodel).map Prod.snd) := by
      rw [estimate_df_importance]
      exact (List.mergeSort_perm _ _).map Prod.snd
    have hsnd : (df_importance_unsorted cmodel).map Prod.snd
        = cmodel.feature_importances := by
      apply List.map_snd_zip
      rfl
    have : cmodel.feature_importances.Nodup := by
      rw [← hsnd]
      exact hperm.nodup_iff.mp hnd
    have hmem : (0 : ℚ) ∈ ([0, 0, 0, 0, 0, 0] : List ℚ) := by simp
    rw [show cmodel.feature_importances = ([1, 0, 0, 0, 0, 0, 0, 0] : List ℚ) from rfl,
      List.nodup_cons, List.nodup_cons] at this
    exact this.2.1 hmem

/-- C5 (amended): for every model, the displayed importance table is
sorted in weakly descending order of importance, and sorting preserves
the total importance: when the model's importances have the expected
length eight, the displayed values sum to exactly the model's importance
sum (so to 1 whenever the model's importances sum to 1). -/
theorem C5_sorted_descending (model : TrainedModel) (i : Inputs)
    (h : model.feature_importances.length = 8) :
    List.Sorted (· ≥ ·) ((estimateAction model i).df_importance.map Prod.snd) ∧
    ((estimateAction model i).df_importance.map Prod.snd).sum
      = model.feature_importances.sum := by
  constructor
  · have htrans : ∀ a b c : String × ℚ, (decide (b.2 ≤ a.2)) = true →
        (decide (c.2 ≤ b.2)) = true → (decide (c.2 ≤ a.2)) = true := by
      intro a b c hab hbc
      simp only [decide_eq_true_iff] at *
      exact le_trans hbc hab
    have htotal : ∀ a b : String × ℚ,
        (decide (b.2 ≤ a.2) || decide (a.2 ≤ b.2)) = true := by
      intro a b
      simp only [Bool.or_eq_true, decide_eq_true_iff]
      exact le_total _ _
    have hs := @List.sorted_mergeSort (String × ℚ)
      (fun a b => decide (b.2 ≤ a.2)) htrans htotal (df_importance_unsorted model)
    rw [estimate_df_importance]
    unfold sort_values_desc
    rw [List.Sorted, List.pairwise_map]
    exact hs.imp (by intro a b hab; simpa [ge_iff_le] using hab)
  · have hperm : ((estimateAction model i).df_importance.map Prod.snd).Perm
        ((df_importance_unsorted model).map Prod.snd) := by
      rw [estimate_df_importance]
      exact (List.mergeSort_perm _ _).map Prod.snd
    rw [hperm.sum_eq]
    congr 1
    apply List.map_snd_zip
    rw [h]
    rfl

/-- C5 witness: the concrete model has eight importances, and its table is
weakly descending and sum-preserving. -/
theorem C5_witness :
    cmodel.feature_importances.length = 8 ∧
    (List.Sorted (· ≥ ·) ((estimateAction cmodel inputs0).df_importance.map Prod.snd) ∧
     ((estimateAction cmodel inputs0).df_importance.map Prod.snd).sum
       = cmodel.feature_importances.sum) :=
  ⟨rfl, C5_sorted_descending cmodel inputs0 rfl⟩

/-- C1: the dataset split is seeded (`random_state=42`) but the forest is
not: the code builds `RandomForestRegressor(n_estimators, max_depth)`
with `random_state = None`, so the fit reads ambient process randomness
and the score of a run is not a function of the hyperparameters alone —
at the failing input (30, 5), a library behavior consistent with an
unseeded forest produces different scores on two consecutive runs. -/
theorem C1_unseeded_random_forest :
    (∀ nA nD : ℕ, (labModelConfig nA nD).random_state = none) ∧
    (∃ (lib : MLLib) (data : Dataset) (rng₁ rng₂ : ℕ),
        scoreView (runExperiment lib rng₁ data 30 5)
          ≠ scoreView (runExperiment lib rng₂ data 30 5)) := by
  refine ⟨fun nA nD => rfl, ⟨lib0, data0, 0, 1, ?_⟩⟩
  rw [run0 0, run0 1]
  simp only [scoreView, Except.toOption, Option.map]
  norm_num [score_rng0, score_rng1]

/-- C7: a successful experiment run with slider-bounded hyperparameters
forwards exactly those hyperparameters to a fresh forest config, splits
the dataset with the fixed seed 42 into a held-out part of ceil(n * 0.2)
rows and a training part holding the remaining rows (together a
permutation of the dataset), scores the fitted model by the coefficient
of determination of its predictions against the held-out targets, and
returns the predicted/actual pairs of that split. -/
theorem C7_experiment_contract (lib : MLLib) (rng : ℕ) (data : Dataset)
    (nA nD : ℕ) (_hA : 10 ≤ nA ∧ nA ≤ 100) (_hD : 1 ≤ nD ∧ nD ≤ 20)
    (hlen : data.target.length = data.data.length)
    (r : ExperimentResult)
    (hr : runExperiment lib rng data nA nD = Except.ok r) :
    r.labConfig = labModelConfig nA nD ∧
    r.splitSeed = 42 ∧
    r.X_test.length = ⌈(data.data.length : ℚ) * (1/5)⌉₊ ∧
    r.Y_test.length = r.X_test.length ∧
    (r.X_train ++ r.X_test).Perm data.data ∧
    (r.Y_train ++ r.Y_test).Perm data.target ∧
    r.score = r2_score r.Y_test r.preds ∧
    r.pairs = r.Y_test.zip r.preds := by
  simp only [runExperiment] at hr
  cases hfit : lib.fit (labModelConfig nA nD) rng
      (train_test_split lib data.data data.target (1/5) 42).1
      (train_test_split lib data.data data.target (1/5) 42).2.2.1 with
  | error e =>
    rw [hfit] at hr
    simp [Except.map] at hr
  | ok g =>
    rw [hfit] at hr
    simp only [Except.map] at hr
    injection hr with hr
    subst hr
    have hPlen : (lib.permutation 42 data.data.length).length
        = data.data.length :=
      (lib.permutation_perm 42 _).length_eq.trans (List.length_range _)
    have hnt : ⌈(data.data.length : ℚ) * (1/5)⌉₊ ≤ data.data.length := by
      rw [Nat.ceil_le]
      calc (data.data.length : ℚ) * (1/5)
          ≤ (data.data.length : ℚ) * 1 :=
            mul_le_mul_of_nonneg_left (by norm_num) (Nat.cast_nonneg _)
        _ = (data.data.length : ℚ) := mul_one _
    have hidx : ((lib.permutation 42 data.data.length).drop
          ⌈(data.data.length : ℚ) * (1/5)⌉₊
        ++ (lib.permutation 42 data.data.length).take
          ⌈(data.data.length : ℚ) * (1/5)⌉₊).Perm
        (List.range data.data.length) := by
      refine List.Perm.trans List.perm_append_comm ?_
      rw [List.take_append_drop]
      exact lib.permutation_perm 42 _
    refine ⟨rfl, rfl, ?_, ?_, ?_, ?_, rfl, rfl⟩
    · simp only [train_test_split, List.length_map, List.length_take, hPlen]
      exact Nat.min_eq_left hnt
    · simp only [train_test_split, List.length_map, List.length_take, hPlen]
    · show (((lib.permutation 42 data.data.length).drop
          ⌈((data.data.length : ℕ) : ℚ) * (1/5)⌉₊).map
            (fun k => data.data.getD k [])
        ++ ((lib.permutation 42 data.data.length).take
          ⌈((data.data.length : ℕ) : ℚ) * (1/5)⌉₊).map
            (fun k => data.data.getD k [])).Perm data.data
      rw [← List.map_append]
      have h2 := hidx.map (fun k => data.data.getD k [])
      rwa [map_getD_range] at h2
    · show (((lib.permutation 42 data.data.length).drop
          ⌈((data.data.length : ℕ) : ℚ) * (1/5)⌉₊).map
            (fun k => data.target.getD k 0)
        ++ ((lib.permutation 42 data.data.length).take
          ⌈((data.data.length : ℕ) : ℚ) * (1/5)⌉₊).map
            (fun k => data.target.getD k 0)).Perm data.target
      rw [← List.map_append]
      have h2 := hidx.map (fun k => data.target.getD k 0)
      have h3 : (List.range data.data.length).map (fun k => data.target.getD k 0)
          = data.target := by
        rw [← hlen]
        exact map_getD_range data.target 0
      rw [h3] at h2
      exact h2

/-- C7 witness: the concrete run with the default hyperparameters (30, 5)
on the five-row dataset satisfies the whole contract. -/
theorem C7_witness :
    ((10 ≤ 30 ∧ 30 ≤ 100) ∧ (1 ≤ 5 ∧ 5 ≤ 20) ∧
      data0.target.length = data0.data.length) ∧
    (r0.labConfig = labModelConfig 30 5 ∧
     r0.splitSeed = 42 ∧
     r0.X_test.length = ⌈(data0.data.length : ℚ) * (1/5)⌉₊ ∧
     r0.Y_test.length = r0.X_test.length ∧
     (r0.X_train ++ r0.X_test).Perm data0.data ∧
     (r0.Y_train ++ r0.Y_test).Perm data0.target ∧
     r0.score = r2_score r0.Y_test r0.preds ∧
     r0.pairs = r0.Y_test.zip r0.preds) :=
  ⟨⟨⟨by norm_num, by norm_num⟩, ⟨by norm_num, by norm_num⟩, rfl⟩,
   C7_experiment_contract lib0 0 data0 30 5
     ⟨by norm_num, by norm_num⟩ ⟨by norm_num, by norm_num⟩ rfl r0 hrun0⟩

/-- C8: the R2 score of any run lies in (-infinity, 1], and equals 1
exactly when the predictions on the held-out split coincide with the
actual targets. -/
theorem C8_score_bounded (y_true y_pred : List ℚ)
    (h : y_pred.length = y_true.length) :
    r2_score y_true y_pred ≤ 1 ∧
    (r2_score y_true y_pred = 1 ↔ y_pred = y_true) := by
  have hiff := zip_sq_sum_eq_zero_iff y_true y_pred h
  have hres := sq_sum_nonneg (y_true.zip y_pred)
  have htot := sq_sum_nonneg' y_true (mean y_true)
  unfold r2_score
  split_ifs with h1 h2
  · exact ⟨le_refl 1, by simp [hiff.mp h1]⟩
  · refine ⟨by norm_num, ?_, ?_⟩
    · intro h01
      norm_num at h01
    · intro heq
      exact absurd (hiff.mpr heq) h1
  · have hrespos :
        0 < ((y_true.zip y_pred).map (fun p => (p.1 - p.2) ^ 2)).sum :=
      lt_of_le_of_ne hres (Ne.symm h1)
    have htotpos :
        0 < (y_true.map (fun y => (y - mean y_true) ^ 2)).sum :=
      lt_of_le_of_ne htot (Ne.symm h2)
    have hdiv := div_pos hrespos htotpos
    refine ⟨by linarith, ?_, ?_⟩
    · intro he
      exact absurd (by linarith : ((y_true.zip y_pred).map
          (fun p => (p.1 - p.2) ^ 2)).sum
            / (y_true.map (fun y => (y - mean y_true) ^ 2)).sum = 0)
        (ne_of_gt hdiv)
    · intro heq
      exact absurd (hiff.mpr heq) h1

/-- C8 witness: on truth [0, 2] and prediction [0, 1] the score is
bounded by 1 and is not 1, the fit being imperfect. -/
theorem C8_witness :
    ([(0 : ℚ), 1].length = [(0 : ℚ), 2].length) ∧
    (r2_score [0, 2] [0, 1] ≤ 1 ∧
     (r2_score [0, 2] [0, 1] = 1 ↔ [(0 : ℚ), 1] = [0, 2])) :=
  ⟨rfl, C8_score_bounded [0, 2] [0, 1] rfl⟩

/-- C9: the predictor panel reads only the model, the eight inputs and
its own button: changing anything on the experiment side — the lab
toggle, the sliders, the library behavior (including one whose fit
raises, aborting that action), the dataset or the ambient randomness —
leaves the estimate and the map unchanged; conversely the predictor
mutates no state, so toggling its button leaves the experiment panel
unchanged. -/
theorem C9_frame (model : TrainedModel) (lib lib' : MLLib) (rng rng' : ℕ)
    (data data' : Dataset) (s : AppState) (b e c : Bool) (nA nD : ℕ) :
    ((renderApp model lib' rng' data'
        { s with show_lab := b, n_arbres := nA, profondeur := nD,
                 experimentClicked := e }).estimate
      = (renderApp model lib rng data s).estimate ∧
     (renderApp model lib' rng' data'
        { s with show_lab := b, n_arbres := nA, profondeur := nD,
                 experimentClicked := e }).map_data
      = (renderApp model lib rng data s).map_data) ∧
    (renderApp model lib rng data { s with estimateClicked := c }).experiment
      = (renderApp model lib rng data s).experiment :=
  ⟨⟨rfl, rfl⟩, rfl⟩

/-- C10: the coordinate map is rendered on every run, unconditionally,
from the entered coordinates; the estimate output exists exactly when the
estimate button fired on this run, and is absent on any run where it did
not. -/
theorem C10_map_unconditional (model : TrainedModel) (lib : MLLib)
    (rng : ℕ) (data : Dataset) (s : AppState) :
    (renderApp model lib rng data s).map_data
      = (s.inputs.latitude, s.inputs.longitude) ∧
    (renderApp model lib rng data s).estimate
      = (if s.estimateClicked then some (estimateAction model s.inputs)
         else none) :=
  ⟨rfl, rfl⟩

end MonProjetImmo
